import Mathlib

/-! Shallow embedding of the OneOnOne repository's two Python source files:
`Python/ai_daemon.py` (the persistent MLX inference daemon) and
`Python/whisper_transcribe.py` (the one-shot transcription utility).
External collaborators (the mlx provider, the filesystem, the whisper
backends) are modelled as explicit environments of function-valued fields;
machine state is passed explicitly. -/

/-! ### ai_daemon.py: data model -/

/-- The result dict returned by `AIDaemon.load_model` (lines 48-87): each JSON
key that some branch sets, absent keys as `none`. -/
structure LoadResult where
  success : Bool
  path : Option String
  name : Option String
  cached : Option Bool
  message : Option String
  error : Option String
  type : Option String
  deriving DecidableEq, Repr

/-- AIDaemon's mutable state (`__init__`, lines 29-33). Model and tokenizer
handles are opaque; only their presence and identity matter, so they are
modelled as `Nat`. -/
structure DState where
  model : Option Nat
  tokenizer : Option Nat
  model_path : Option String
  running : Bool
  deriving DecidableEq, Repr

/-- The arguments the daemon passes to the provider's generate operation
(`mlx_lm.generate`, lines 107-113): `prompt=prompt`,
`max_tokens=max_tokens`, `verbose=False` (besides the model and tokenizer
handles). -/
structure ProviderGenArgs where
  prompt : String
  max_tokens : Nat
  verbose : Bool
  deriving DecidableEq, Repr

/-- Observable behaviour of one provider generate call: the tokens its
iterator yields, and optionally an exception raised when the iterator is
pulled after the last token (`err = some msg`; `tokens = []` with
`err = some msg` models a call that raises before the first token). -/
structure ProviderGen where
  tokens : List String
  err : Option String

/-- The external world of the daemon: the filesystem (`Path.exists`,
`Path.expanduser`) and the mlx provider (`load`, `generate`). -/
structure Env where
  pathExists : String → Bool
  expanduser : String → String
  load : String → Except String (Nat × Nat)
  pgen : ProviderGenArgs → ProviderGen

/-- One response line the daemon prints, discriminated as the source's JSON
dicts are. -/
inductive Resp where
  | ready (message : String)
  | loadResult (r : LoadResult)
  | token (token : String)
  | complete (message : String)
  | error (error : String)
  | status (running : Bool) (model_loaded : Bool) (model_path : Option String)
  | shutdown (message : String)
  deriving DecidableEq, Repr

/-- A decoded JSON command object: each field the dispatcher reads, present
or absent. -/
structure CmdObj where
  type : Option String
  model_path : Option String
  prompt : Option String
  max_tokens : Option Nat
  temperature : Option Rat
  top_p : Option Rat
  repetition_penalty : Option Rat
  deriving DecidableEq, Repr

/-- One line of the daemon's input: a line that parses to a JSON object, or a
line `json.loads` rejects (`JSONDecodeError`). -/
inductive InLine where
  | line (c : CmdObj)
  | malformed (msg : String)

/-- Python's rendering of an optional string in an f-string: `None` prints as
"None". -/
def pyOptStr : Option String → String
  | some s => s
  | none => "None"

/-- The final component of a path, modelling pathlib's `Path.name`. -/
def pathName (p : String) : String := (p.splitOn "/").getLastD p

/-! ### ai_daemon.py: operations -/

/-- `AIDaemon.__init__` (lines 29-33): no model, no tokenizer, no path,
running set. -/
def AIDaemon.initState : DState := ⟨none, none, none, true⟩

/-- `AIDaemon.load_model` (lines 48-87). Returns the result dict, the state
after the call, and whether the provider's load operation was invoked. -/
def AIDaemon.load_model (env : Env) (st : DState) (model_path : String) :
    LoadResult × DState × Bool :=
  let p := env.expanduser model_path
  if !(env.pathExists p) then
    (⟨false, none, none, none, none,
      some ("Model path does not exist: " ++ p), some "path_error"⟩, st, false)
  else if st.model.isSome && st.model_path == some p then
    (⟨true, some p, some (pathName p), some true,
      some "Model already loaded in daemon", none, none⟩, st, false)
  else
    match env.load p with
    | Except.ok (m, t) =>
      (⟨true, some p, some (pathName p), some false,
        some "Model loaded successfully", none, none⟩,
        ⟨some m, some t, some p, st.running⟩, true)
    | Except.error e =>
      (⟨false, none, none, none, none, some e, some "load_error"⟩, st, true)

/-- The `for token in response` loop of `AIDaemon.generate` (lines 116-123):
`running i` is the value of `self.running` read at the i-th check. Returns
the yielded token responses and whether the loop was left by `break`. -/
def streamTokens (running : Nat → Bool) : List String → Nat → List Resp × Bool
  | [], _ => ([], false)
  | t :: ts, i =>
    if running i then
      let p := streamTokens running ts (i + 1)
      (Resp.token t :: p.1, p.2)
    else ([], true)

/-- The try block of `AIDaemon.generate` (lines 105-135): drain the provider
iterator checking `self.running` before each yield; after the loop (left
normally or by `break`) yield one `complete` response; if the provider raises,
yield one `error` response instead. -/
def streamOutcome (running : Nat → Bool) (g : ProviderGen) : List Resp :=
  if (streamTokens running g.tokens 0).2 then
    (streamTokens running g.tokens 0).1 ++ [Resp.complete "Generation finished"]
  else
    match g.err with
    | some e => (streamTokens running g.tokens 0).1 ++ [Resp.error e]
    | none => (streamTokens running g.tokens 0).1 ++ [Resp.complete "Generation finished"]

/-- The arguments the generate handler passes to the provider's generate
operation (lines 107-113): `prompt=prompt`, `max_tokens=max_tokens`,
`verbose=False`. The handler's `temperature`, `top_p` and
`repetition_penalty` parameters (lines 93-95) do not appear in the call. -/
def AIDaemon.generateCall (prompt : String) (max_tokens : Nat)
    (temperature top_p repetition_penalty : Rat) : ProviderGenArgs :=
  ⟨prompt, max_tokens, false⟩

/-- `AIDaemon.generate` (lines 89-135): the full stream of responses the
generator yields for one command. -/
def AIDaemon.generate (env : Env) (st : DState) (prompt : String) (max_tokens : Nat)
    (temperature top_p repetition_penalty : Rat) (running : Nat → Bool) : List Resp :=
  if st.model.isNone then [Resp.error "No model loaded"]
  else
    streamOutcome running
      (env.pgen (AIDaemon.generateCall prompt max_tokens temperature top_p repetition_penalty))

/-- One iteration of the `AIDaemon.run` read-loop body (lines 154-205): the
responses printed, the state after the iteration, and whether the loop
breaks. A JSON object without the dispatched key falls to the `except
Exception` clause (lines 201-205), as `command["model_path"]` /
`command["prompt"]` raise `KeyError` there. -/
def AIDaemon.step (env : Env) (st : DState) : InLine → List Resp × DState × Bool
  | InLine.malformed msg => ([Resp.error ("Invalid JSON: " ++ msg)], st, false)
  | InLine.line c =>
    if c.type == some "load_model" then
      match c.model_path with
      | some p =>
        let r := AIDaemon.load_model env st p
        ([Resp.loadResult r.1], r.2.1, false)
      | none => ([Resp.error "Unexpected error: 'model_path'"], st, false)
    else if c.type == some "generate" then
      match c.prompt with
      | some pr =>
        (AIDaemon.generate env st pr (c.max_tokens.getD 1024) (c.temperature.getD (7/10))
          (c.top_p.getD (9/10)) (c.repetition_penalty.getD 1) (fun _ => st.running), st, false)
      | none => ([Resp.error "Unexpected error: 'prompt'"], st, false)
    else if c.type == some "status" then
      ([Resp.status true st.model.isSome st.model_path], st, false)
    else if c.type == some "shutdown" then
      ([Resp.shutdown "Daemon shutting down"],
        ⟨st.model, st.tokenizer, st.model_path, false⟩, true)
    else
      ([Resp.error ("Unknown command type: " ++ pyOptStr c.type)], st, false)

/-- The `while self.running` loop of `AIDaemon.run` (lines 145-205) over a
list of input lines; an exhausted list is EOF. -/
def AIDaemon.runLoop (env : Env) : DState → List InLine → List Resp × DState
  | st, [] => ([], st)
  | st, l :: ls =>
    if st.running then
      let r := AIDaemon.step env st l
      if r.2.2 then (r.1, r.2.1)
      else
        let rest := AIDaemon.runLoop env r.2.1 ls
        (r.1 ++ rest.1, rest.2)
    else ([], st)

/-- `AIDaemon.run` (lines 137-205): the ready response, then the read loop. -/
def AIDaemon.run (env : Env) (st : DState) (input : List InLine) : List Resp × DState :=
  let r := AIDaemon.runLoop env st input
  (Resp.ready "AI Daemon started and ready" :: r.1, r.2)

/-- The DaemonState invariant: `model` and `tokenizer` both present or both
absent, and `model_path` present iff `model` is present. -/
def stateInv (st : DState) : Prop :=
  st.model.isSome = st.tokenizer.isSome ∧ st.model_path.isSome = st.model.isSome

/-! ### whisper_transcribe.py: data model -/

/-- A formatted segment dict as built by `transcribe_audio` (lines 69-74). -/
structure Segment where
  text : String
  start : Rat
  «end» : Rat
  confidence : Rat
  deriving DecidableEq, Repr

/-- A segment dict as the whisper backend returns it, every key read with
`.get` and a default (lines 70-73), so each field may be absent. -/
structure RawSegment where
  text : Option String
  start : Option Rat
  «end» : Option Rat
  no_speech_prob : Option Rat
  deriving DecidableEq, Repr

/-- A segment in a printed result: the openai-whisper branch prints formatted
dicts (lines 67-74), the mlx branch forwards the provider's dicts unchanged
(line 33). -/
inductive SegmentJson where
  | formatted (s : Segment)
  | raw (r : RawSegment)
  deriving DecidableEq, Repr

/-- A result dict as a whisper backend returns it, keys read with `.get`. -/
structure RawResult where
  text : Option String
  segments : Option (List RawSegment)
  language : Option String

/-- The one JSON object a run of the utility prints. Success results carry no
`error` key (`error = none`). -/
structure TransOut where
  error : Option String
  text : String
  segments : List SegmentJson
  language : String

/-- The external world of the transcription utility: which whisper backends
are importable, what each returns, the `WHISPER_MODEL` environment variable
and the filesystem. -/
structure WhisperEnv where
  hasOpenaiWhisper : Bool
  hasMlxWhisper : Bool
  mlxTranscribe : String → RawResult
  envWhisperModel : Option String
  load_model : String → Except String Unit
  transcribe : String → Except String RawResult
  fileExists : String → Bool

/-! ### whisper_transcribe.py: operations -/

/-- Formatting of one backend segment (lines 69-74). -/
def formatSegment (s : RawSegment) : Segment :=
  ⟨(s.text.getD "").trim, s.start.getD 0, s.«end».getD 0, s.no_speech_prob.getD 0⟩

/-- `transcribe_audio` (lines 14-88). -/
def whisper_transcribe.transcribe_audio (env : WhisperEnv) (audio_path : String) : TransOut :=
  if !env.hasOpenaiWhisper then
    if env.hasMlxWhisper then
      let r := env.mlxTranscribe audio_path
      ⟨none, r.text.getD "", (r.segments.getD []).map SegmentJson.raw, r.language.getD "en"⟩
    else
      ⟨some "Whisper not installed. Install with: pip install openai-whisper or pip install mlx-whisper",
        "", [], "en"⟩
  else
    let model_name := env.envWhisperModel.getD "base"
    match env.load_model model_name with
    | Except.error e => ⟨some ("Failed to load Whisper model: " ++ e), "", [], "en"⟩
    | Except.ok _ =>
      match env.transcribe audio_path with
      | Except.error e => ⟨some ("Transcription failed: " ++ e), "", [], "en"⟩
      | Except.ok r =>
        ⟨none, (r.text.getD "").trim,
          (r.segments.getD []).map (fun s => SegmentJson.formatted (formatSegment s)),
          r.language.getD "en"⟩

/-- `main` (lines 91-113): the printed object and the process exit status
(`sys.exit(1)` on the two early checks; falling off the end of `main` exits
with status 0). -/
def whisper_transcribe.main (env : WhisperEnv) (argv : List String) : TransOut × Nat :=
  if argv.length < 2 then
    (⟨some "Usage: whisper_transcribe.py <audio_file>", "", [], "en"⟩, 1)
  else
    let audio_path := argv.getD 1 ""
    if !env.fileExists audio_path then
      (⟨some ("File not found: " ++ audio_path), "", [], "en"⟩, 1)
    else
      (whisper_transcribe.transcribe_audio env audio_path, 0)

/-- The printed object is a failure object: the `error` field set and the
other fields at their empty defaults. -/
def failureOut (o : TransOut) : Prop :=
  o.error.isSome = true ∧ o.text = "" ∧ o.segments = [] ∧ o.language = "en"

/-! ### Concrete fixtures used by witnesses and counterexamples -/

/-- A daemon state with a model resident. -/
def stLoaded : DState := ⟨some 1, some 2, some "/m", true⟩

/-- An environment whose filesystem has every path, whose provider load
succeeds with handles (1, 2) and whose generate call yields three tokens and
then terminates normally. -/
def envThree : Env :=
  ⟨fun _ => true, fun p => p, fun _ => Except.ok (1, 2), fun _ => ⟨["a", "b", "c"], none⟩⟩

/-- An environment whose filesystem has no path. -/
def envNoPath : Env :=
  ⟨fun _ => false, fun p => p, fun _ => Except.error "boom", fun _ => ⟨[], none⟩⟩

/-- A run flag that is cleared after the first loop check. -/
def runOnce : Nat → Bool := fun i => decide (i < 1)

/-- A run flag that stays set. -/
def runAlways : Nat → Bool := fun _ => true

/-- A command object with only the `type` key. -/
def cmdOf (ty : Option String) : CmdObj := ⟨ty, none, none, none, none, none, none⟩

/-! ### Helper lemmas -/

theorem streamTokens_all_true (running : Nat → Bool) (h : ∀ j, running j = true) :
    ∀ (ts : List String) (i : Nat), streamTokens running ts i = (ts.map Resp.token, false) := by
  intro ts
  induction ts with
  | nil => intro i; simp [streamTokens]
  | cons t ts ih => intro i; simp [streamTokens, h i, ih (i + 1)]

theorem streamTokens_break (running : Nat → Bool) :
    ∀ (ts : List String) (i k : Nat), (∀ j, j < k → running (i + j) = true) →
    running (i + k) = false → k < ts.length →
    streamTokens running ts i = ((ts.take k).map Resp.token, true) := by
  intro ts
  induction ts with
  | nil => intro i k _ _ hlen; simp at hlen
  | cons t ts ih =>
    intro i k hlt hk hlen
    cases k with
    | zero =>
      have h0 : running i = false := by simpa using hk
      simp [streamTokens, h0]
    | succ k =>
      have h0 : running i = true := by simpa using hlt 0 (Nat.succ_pos k)
      have hlt' : ∀ j, j < k → running (i + 1 + j) = true := by
        intro j hj
        have := hlt (j + 1) (Nat.succ_lt_succ hj)
        simpa [Nat.add_comm, Nat.add_left_comm] using this
      have hk' : running (i + 1 + k) = false := by
        simpa [Nat.add_comm, Nat.add_left_comm] using hk
      have hlen' : k < ts.length := Nat.lt_of_succ_lt_succ (by simpa using hlen)
      simp [streamTokens, h0, ih (i + 1) k hlt' hk' hlen']

/-! ### C3: successful generation emits N tokens then one complete -/

/-- C3: when a model is loaded, the provider's iterator terminates normally
and the run flag stays set, the generate handler emits exactly one `token`
response per provider token, in provider order, followed by exactly one
`complete` response, and nothing after it. -/
theorem C3_theorem (env : Env) (st : DState) (m : Nat) (prompt : String) (max_tokens : Nat)
    (temperature top_p repetition_penalty : Rat) (running : Nat → Bool)
    (hm : st.model = some m)
    (herr : (env.pgen (AIDaemon.generateCall prompt max_tokens temperature top_p
      repetition_penalty)).err = none)
    (hrun : ∀ i, running i = true) :
    AIDaemon.generate env st prompt max_tokens temperature top_p repetition_penalty running =
      (env.pgen (AIDaemon.generateCall prompt max_tokens temperature top_p
        repetition_penalty)).tokens.map Resp.token
        ++ [Resp.complete "Generation finished"] := by
  simp [AIDaemon.generate, hm, streamOutcome, streamTokens_all_true running hrun, herr]

theorem C3_witness :
    AIDaemon.generate envThree stLoaded "p" 100 (7/10) (9/10) 1 runAlways =
      (envThree.pgen (AIDaemon.generateCall "p" 100 (7/10) (9/10) 1)).tokens.map Resp.token
        ++ [Resp.complete "Generation finished"] :=
  C3_theorem envThree stLoaded 1 "p" 100 (7/10) (9/10) 1 runAlways rfl rfl (fun _ => rfl)

/-! ### C1: cancellation mid-stream -/

/-- C1 fails on the code: with three provider tokens and the run flag cleared
after the first check, the generator stops yielding tokens but still emits a
`complete` terminal response (the `break` at line 118 falls through to the
yield at lines 126-129). -/
theorem C1_counterexample :
    runOnce 0 = true ∧ runOnce 1 = false ∧
    (envThree.pgen (AIDaemon.generateCall "p" 100 (7/10) (9/10) 1)).tokens.length = 3 ∧
    AIDaemon.generate envThree stLoaded "p" 100 (7/10) (9/10) 1 runOnce =
      [Resp.token "a", Resp.complete "Generation finished"] := by
  refine ⟨rfl, rfl, rfl, rfl⟩

/-- C1 amended: when the run flag is cleared between token yields (flag set
for the first k checks and cleared at check k, with more provider tokens
still pending), the handler stops yielding tokens immediately and emits no
`error` response, but still emits exactly one `complete` response: the
cancelled stream ends with the `complete` terminal marker. -/
theorem C1_theorem (env : Env) (st : DState) (m : Nat) (prompt : String) (max_tokens : Nat)
    (temperature top_p repetition_penalty : Rat) (running : Nat → Bool) (k : Nat)
    (hm : st.model = some m)
    (hlt : ∀ j, j < k → running j = true) (hk : running k = false)
    (hlen : k < (env.pgen (AIDaemon.generateCall prompt max_tokens temperature top_p
      repetition_penalty)).tokens.length) :
    AIDaemon.generate env st prompt max_tokens temperature top_p repetition_penalty running =
      ((env.pgen (AIDaemon.generateCall prompt max_tokens temperature top_p
        repetition_penalty)).tokens.take k).map Resp.token
        ++ [Resp.complete "Generation finished"] := by
  have hb := streamTokens_break running
    (env.pgen (AIDaemon.generateCall prompt max_tokens temperature top_p
      repetition_penalty)).tokens 0 k (by simpa using hlt) (by simpa using hk) hlen
  simp [AIDaemon.generate, hm, streamOutcome, hb]

theorem C1_witness :
    AIDaemon.generate envThree stLoaded "p" 100 (7/10) (9/10) 1 runOnce =
      ((envThree.pgen (AIDaemon.generateCall "p" 100 (7/10) (9/10) 1)).tokens.take 1).map
        Resp.token ++ [Resp.complete "Generation finished"] :=
  C1_theorem envThree stLoaded 1 "p" 100 (7/10) (9/10) 1 runOnce 1 rfl
    (by decide) rfl (by decide)

/-! ### C6: generate with no model loaded -/

/-- C6: a generate command issued while no model is loaded produces exactly
one `error` response and nothing else, whatever the provider or the run flag
would do. -/
theorem C6_theorem (env : Env) (st : DState) (prompt : String) (max_tokens : Nat)
    (temperature top_p repetition_penalty : Rat) (running : Nat → Bool)
    (hm : st.model = none) :
    AIDaemon.generate env st prompt max_tokens temperature top_p repetition_penalty running =
      [Resp.error "No model loaded"] := by
  simp [AIDaemon.generate, hm]

theorem C6_witness :
    AIDaemon.generate envThree AIDaemon.initState "p" 5 1 1 1 runAlways =
      [Resp.error "No model loaded"] :=
  C6_theorem envThree AIDaemon.initState "p" 5 1 1 1 runAlways rfl

/-! ### C2: sampling parameters and the provider call -/

/-- C2 fails on the code: the provider's generate operation receives
identical arguments whatever the command's temperature, top_p and
repetition_penalty are (the call at lines 107-113 passes only the prompt,
max_tokens and verbose=False), so no reading of the provider call recovers
the temperature: the three values are not passed through to the provider. -/
theorem C2_counterexample :
    AIDaemon.generateCall "p" 64 (7/10) (9/10) 1 = AIDaemon.generateCall "p" 64 0 0 0 ∧
    ¬ ∃ f : ProviderGenArgs → Rat,
        ∀ temperature top_p repetition_penalty : Rat,
          f (AIDaemon.generateCall "p" 64 temperature top_p repetition_penalty) =
            temperature := by
  refine ⟨rfl, ?_⟩
  rintro ⟨f, hf⟩
  have h0 := hf 0 0 0
  have h1 := hf 1 0 0
  rw [show AIDaemon.generateCall "p" 64 0 0 0 = AIDaemon.generateCall "p" 64 1 0 0 from rfl]
    at h0
  exact absurd (h0 ▸ h1) (by norm_num)

/-- C2 amended: the temperature, top_p and repetition_penalty values taken
from the command (or their defaults) reach the generate handler, but the
handler does not forward them: the provider's generate operation receives
only the prompt, max_tokens and verbose=False, identically for all values of
the three sampling parameters, and the handler's whole response stream is
invariant under them. -/
theorem C2_theorem (prompt : String) (max_tokens : Nat) (t₁ tp₁ rp₁ t₂ tp₂ rp₂ : Rat) :
    AIDaemon.generateCall prompt max_tokens t₁ tp₁ rp₁ =
      ⟨prompt, max_tokens, false⟩ ∧
    AIDaemon.generateCall prompt max_tokens t₁ tp₁ rp₁ =
      AIDaemon.generateCall prompt max_tokens t₂ tp₂ rp₂ ∧
    ∀ (env : Env) (st : DState) (running : Nat → Bool),
      AIDaemon.generate env st prompt max_tokens t₁ tp₁ rp₁ running =
        AIDaemon.generate env st prompt max_tokens t₂ tp₂ rp₂ running :=
  ⟨rfl, rfl, fun _ _ _ => rfl⟩

/-! ### C4: load_model caching -/

/-- C4: when the (expanded) path exists and the provider load succeeds, a
`load_model` command answers success=true, and a second `load_model` command
with the same path answers success=true with cached=true, without invoking
the provider's load operation and without changing DaemonState. -/
theorem C4_theorem (env : Env) (st : DState) (path : String) (m t : Nat)
    (hex : env.pathExists (env.expanduser path) = true)
    (hload : env.load (env.expanduser path) = Except.ok (m, t)) :
    (AIDaemon.load_model env st path).1.success = true ∧
    (AIDaemon.load_model env (AIDaemon.load_model env st path).2.1 path).1.success = true ∧
    (AIDaemon.load_model env (AIDaemon.load_model env st path).2.1 path).1.cached =
      some true ∧
    (AIDaemon.load_model env (AIDaemon.load_model env st path).2.1 path).2.2 = false ∧
    (AIDaemon.load_model env (AIDaemon.load_model env st path).2.1 path).2.1 =
      (AIDaemon.load_model env st path).2.1 := by
  cases hc : st.model.isSome && st.model_path == some (env.expanduser path) with
  | true => simp [AIDaemon.load_model, hex, hc]
  | false =>
    simp [AIDaemon.load_model, hex, hc, hload]

theorem C4_witness :
    (AIDaemon.load_model envThree AIDaemon.initState "/m").1.success = true ∧
    (AIDaemon.load_model envThree
      (AIDaemon.load_model envThree AIDaemon.initState "/m").2.1 "/m").1.success = true ∧
    (AIDaemon.load_model envThree
      (AIDaemon.load_model envThree AIDaemon.initState "/m").2.1 "/m").1.cached =
        some true ∧
    (AIDaemon.load_model envThree
      (AIDaemon.load_model envThree AIDaemon.initState "/m").2.1 "/m").2.2 = false ∧
    (AIDaemon.load_model envThree
      (AIDaemon.load_model envThree AIDaemon.initState "/m").2.1 "/m").2.1 =
      (AIDaemon.load_model envThree AIDaemon.initState "/m").2.1 :=
  C4_theorem envThree AIDaemon.initState "/m" 1 2 rfl rfl

/-! ### C5: failed load_model leaves state unchanged -/

/-- C5: whenever a `load_model` command fails (success=false), DaemonState is
returned unchanged, and the failure is tagged path_error or load_error;
path_error exactly when the expanded path does not exist, load_error when it
does. -/
theorem C5_theorem (env : Env) (st : DState) (path : String)
    (hfail : (AIDaemon.load_model env st path).1.success = false) :
    (AIDaemon.load_model env st path).2.1 = st ∧
    ((AIDaemon.load_model env st path).1.type = some "path_error" ∨
      (AIDaemon.load_model env st path).1.type = some "load_error") ∧
    (env.pathExists (env.expanduser path) = false →
      (AIDaemon.load_model env st path).1.type = some "path_error") ∧
    (env.pathExists (env.expanduser path) = true →
      (AIDaemon.load_model env st path).1.type = some "load_error") := by
  cases hex : env.pathExists (env.expanduser path) with
  | false => simp [AIDaemon.load_model, hex]
  | true =>
    cases hc : st.model.isSome && st.model_path == some (env.expanduser path) with
    | true => simp [AIDaemon.load_model, hex, hc] at hfail
    | false =>
      cases hload : env.load (env.expanduser path) with
      | ok mt => simp [AIDaemon.load_model, hex, hc, hload] at hfail
      | error e => simp [AIDaemon.load_model, hex, hc, hload]

theorem C5_witness :
    (AIDaemon.load_model envNoPath stLoaded "/x").2.1 = stLoaded ∧
    ((AIDaemon.load_model envNoPath stLoaded "/x").1.type = some "path_error" ∨
      (AIDaemon.load_model envNoPath stLoaded "/x").1.type = some "load_error") ∧
    (envNoPath.pathExists (envNoPath.expanduser "/x") = false →
      (AIDaemon.load_model envNoPath stLoaded "/x").1.type = some "path_error") ∧
    (envNoPath.pathExists (envNoPath.expanduser "/x") = true →
      (AIDaemon.load_model envNoPath stLoaded "/x").1.type = some "load_error") :=
  C5_theorem envNoPath stLoaded "/x" rfl

/-! ### C7: shutdown terminates the loop -/

/-- C7: when the loop reaches a `shutdown` command while running, it emits
exactly one `shutdown` response, clears the run flag and terminates: no later
input line is processed or answered. -/
theorem C7_theorem (env : Env) (st : DState) (c : CmdObj) (ls : List InLine)
    (hrun : st.running = true) (hty : c.type = some "shutdown") :
    AIDaemon.runLoop env st (InLine.line c :: ls) =
      ([Resp.shutdown "Daemon shutting down"],
        ⟨st.model, st.tokenizer, st.model_path, false⟩) := by
  simp [AIDaemon.runLoop, hrun, AIDaemon.step, hty]

theorem C7_witness :
    AIDaemon.runLoop envThree stLoaded
        [InLine.line (cmdOf (some "shutdown")), InLine.line (cmdOf (some "status"))] =
      ([Resp.shutdown "Daemon shutting down"],
        ⟨stLoaded.model, stLoaded.tokenizer, stLoaded.model_path, false⟩) :=
  C7_theorem envThree stLoaded (cmdOf (some "shutdown"))
    [InLine.line (cmdOf (some "status"))] rfl rfl

/-! ### C10: a JSON object without a "type" field -/

/-- C10: a line parsing to a JSON object with no "type" field produces
exactly one `error` response naming the unknown command type as None, leaves
the state unchanged, and the loop continues with the remaining lines. -/
theorem C10_theorem (env : Env) (st : DState) (c : CmdObj) (ls : List InLine)
    (hrun : st.running = true) (hty : c.type = none) :
    AIDaemon.runLoop env st (InLine.line c :: ls) =
      (Resp.error "Unknown command type: None" :: (AIDaemon.runLoop env st ls).1,
        (AIDaemon.runLoop env st ls).2) := by
  simp [AIDaemon.runLoop, hrun, AIDaemon.step, hty, pyOptStr]

theorem C10_witness :
    AIDaemon.runLoop envThree stLoaded
        [InLine.line (cmdOf none), InLine.line (cmdOf (some "status"))] =
      (Resp.error "Unknown command type: None" ::
          (AIDaemon.runLoop envThree stLoaded [InLine.line (cmdOf (some "status"))]).1,
        (AIDaemon.runLoop envThree stLoaded [InLine.line (cmdOf (some "status"))]).2) :=
  C10_theorem envThree stLoaded (cmdOf none) [InLine.line (cmdOf (some "status"))] rfl rfl

/-! ### C8: the DaemonState invariant -/

theorem stateInv_load_model (env : Env) (st : DState) (p : String) (h : stateInv st) :
    stateInv (AIDaemon.load_model env st p).2.1 := by
  cases hex : env.pathExists (env.expanduser p) with
  | false => simpa [AIDaemon.load_model, hex] using h
  | true =>
    cases hc : st.model.isSome && st.model_path == some (env.expanduser p) with
    | true => simpa [AIDaemon.load_model, hex, hc] using h
    | false =>
      cases hload : env.load (env.expanduser p) with
      | ok mt =>
        obtain ⟨m, t⟩ := mt
        simp [AIDaemon.load_model, hex, hc, hload, stateInv]
      | error e => simpa [AIDaemon.load_model, hex, hc, hload] using h

theorem stateInv_step (env : Env) (st : DState) (l : InLine) (h : stateInv st) :
    stateInv (AIDaemon.step env st l).2.1 := by
  cases l with
  | malformed msg => simpa [AIDaemon.step] using h
  | line c =>
    cases h1 : c.type == some "load_model" with
    | true =>
      cases hmp : c.model_path with
      | some p => simpa [AIDaemon.step, h1, hmp] using stateInv_load_model env st p h
      | none => simpa [AIDaemon.step, h1, hmp] using h
    | false =>
      cases h2 : c.type == some "generate" with
      | true =>
        cases hpr : c.prompt with
        | some pr => simpa [AIDaemon.step, h1, h2, hpr] using h
        | none => simpa [AIDaemon.step, h1, h2, hpr] using h
      | false =>
        cases h3 : c.type == some "status" with
        | true => simpa [AIDaemon.step, h1, h2, h3] using h
        | false =>
          cases h4 : c.type == some "shutdown" with
          | true =>
            have : stateInv (⟨st.model, st.tokenizer, st.model_path, false⟩ : DState) := h
            simpa [AIDaemon.step, h1, h2, h3, h4] using this
          | false => simpa [AIDaemon.step, h1, h2, h3, h4] using h

theorem stateInv_runLoop (env : Env) (ls : List InLine) :
    ∀ st : DState, stateInv st → stateInv (AIDaemon.runLoop env st ls).2 := by
  induction ls with
  | nil => intro st h; simpa [AIDaemon.runLoop] using h
  | cons l ls ih =>
    intro st h
    cases hr : st.running with
    | false => simpa [AIDaemon.runLoop, hr] using h
    | true =>
      have hstep := stateInv_step env st l h
      cases hb : (AIDaemon.step env st l).2.2 with
      | true => simpa [AIDaemon.runLoop, hr, hb] using hstep
      | false => simpa [AIDaemon.runLoop, hr, hb] using ih _ hstep

/-- C8: the DaemonState invariant (model and tokenizer both present or both
absent; model_path present iff model present) holds of the initial state and
is preserved by load_model on every branch, by every dispatched command
(generate, status, shutdown, unknown-command and malformed-line error
handling included), and by the whole read loop. -/
theorem C8_theorem :
    stateInv AIDaemon.initState ∧
    (∀ (env : Env) (st : DState) (p : String), stateInv st →
      stateInv (AIDaemon.load_model env st p).2.1) ∧
    (∀ (env : Env) (st : DState) (l : InLine), stateInv st →
      stateInv (AIDaemon.step env st l).2.1) ∧
    (∀ (env : Env) (st : DState) (ls : List InLine), stateInv st →
      stateInv (AIDaemon.runLoop env st ls).2) :=
  ⟨⟨rfl, rfl⟩, stateInv_load_model, stateInv_step,
    fun env st ls h => stateInv_runLoop env ls st h⟩

theorem C8_witness :
    stateInv AIDaemon.initState ∧
    stateInv (AIDaemon.runLoop envThree AIDaemon.initState
      [InLine.line ⟨some "load_model", some "/m", none, none, none, none, none⟩,
        InLine.line (cmdOf (some "generate"))]).2 :=
  ⟨C8_theorem.1, C8_theorem.2.2.2 envThree AIDaemon.initState _ ⟨rfl, rfl⟩⟩

/-! ### C9: transcription utility failure outputs and exit status -/

/-- An environment for the transcription utility in which no whisper backend
is installed and every file exists. -/
def wenvNone : WhisperEnv :=
  ⟨false, false, fun _ => ⟨none, none, none⟩, none, fun _ => Except.ok (),
    fun _ => Except.error "x", fun _ => true⟩

/-- C9 fails on the code: with an existing audio file and neither whisper
backend installed, the utility prints the failure object but falls off the
end of main and exits with status 0, not a non-zero status. -/
theorem C9_counterexample :
    (whisper_transcribe.main wenvNone ["whisper_transcribe.py", "a.wav"]).1.error =
      some "Whisper not installed. Install with: pip install openai-whisper or pip install mlx-whisper" ∧
    (whisper_transcribe.main wenvNone ["whisper_transcribe.py", "a.wav"]).2 = 0 :=
  ⟨rfl, rfl⟩

/-- C9 amended: on each of the five failure kinds the utility prints one
structured object whose error field is set and whose other fields are at
their empty defaults (text "", segments [], language "en"); it exits with a
non-zero status for a missing argument or a nonexistent file, but exits with
status 0 when whisper is not installed, the model fails to load, or the
transcription itself fails. -/
theorem C9_theorem :
    (∀ (env : WhisperEnv) (argv : List String), argv.length < 2 →
      failureOut (whisper_transcribe.main env argv).1 ∧
        (whisper_transcribe.main env argv).2 = 1) ∧
    (∀ (env : WhisperEnv) (s p : String), env.fileExists p = false →
      failureOut (whisper_transcribe.main env [s, p]).1 ∧
        (whisper_transcribe.main env [s, p]).2 = 1) ∧
    (∀ (env : WhisperEnv) (s p : String), env.fileExists p = true →
      env.hasOpenaiWhisper = false → env.hasMlxWhisper = false →
      failureOut (whisper_transcribe.main env [s, p]).1 ∧
        (whisper_transcribe.main env [s, p]).2 = 0) ∧
    (∀ (env : WhisperEnv) (s p e : String), env.fileExists p = true →
      env.hasOpenaiWhisper = true →
      env.load_model (env.envWhisperModel.getD "base") = Except.error e →
      failureOut (whisper_transcribe.main env [s, p]).1 ∧
        (whisper_transcribe.main env [s, p]).2 = 0) ∧
    (∀ (env : WhisperEnv) (s p e : String), env.fileExists p = true →
      env.hasOpenaiWhisper = true →
      env.load_model (env.envWhisperModel.getD "base") = Except.ok () →
      env.transcribe p = Except.error e →
      failureOut (whisper_transcribe.main env [s, p]).1 ∧
        (whisper_transcribe.main env [s, p]).2 = 0) := by
  refine ⟨?_, ?_, ?_, ?_, ?_⟩
  · intro env argv hlen
    simp [whisper_transcribe.main, hlen, failureOut]
  · intro env s p hfile
    simp [whisper_transcribe.main, hfile, failureOut]
  · intro env s p hfile hw hm
    simp [whisper_transcribe.main, whisper_transcribe.transcribe_audio, hfile, hw, hm,
      failureOut]
  · intro env s p e hfile hw hload
    simp [whisper_transcribe.main, whisper_transcribe.transcribe_audio, hfile, hw, hload,
      failureOut]
  · intro env s p e hfile hw hload htr
    simp [whisper_transcribe.main, whisper_transcribe.transcribe_audio, hfile, hw, hload,
      htr, failureOut]

theorem C9_witness :
    failureOut (whisper_transcribe.main wenvNone ["whisper_transcribe.py", "a.wav"]).1 ∧
      (whisper_transcribe.main wenvNone ["whisper_transcribe.py", "a.wav"]).2 = 0 :=
  C9_theorem.2.2.1 wenvNone "whisper_transcribe.py" "a.wav" rfl rfl rfl
